import Mathlib

/-!
Shallow embedding of `src/mask.rs` of the `bevy_jfa` repository.

The file embeds the two components of the mask subsystem:

* `MeshMaskPipeline.specialize` — the pipeline specializer
  (`impl SpecializedMeshPipeline for MeshMaskPipeline`, mask.rs lines 33–84);
* `MeshMaskNode.run` — the render-graph node (`impl Node for MeshMaskNode`,
  mask.rs lines 108–156), modelled as a pure function producing the ordered
  trace of its externally visible effects (output-slot assignment, render
  passes opened, draw items submitted) or a panic.

External collaborators (the base `MeshPipeline`, the render-graph context,
the ECS world and phase query) are modelled as explicit parameters carrying
exactly the behaviour the code consumes from them.
-/

namespace BevyJfa

/-- Opaque handle for a GPU bind-group layout (`BindGroupLayout`). -/
abbrev BindGroupLayout := Nat

/-- Opaque handle for a shader asset (`Handle<Shader>`). -/
abbrev ShaderHandle := Nat

/-- Opaque hashed mesh vertex-buffer layout
(`Hashed<InnerMeshVertexBufferLayout, FixedState>`). -/
abbrev VertexLayout := Nat

/-- Opaque specialization error (`SpecializedMeshPipelineError`); the code
only moves it around, never inspects it. -/
abbrev SpecializedMeshPipelineError := Nat

/-- `MeshPipelineKey`: a `u32` bitflags value (bevy 0.10). -/
structure MeshPipelineKey where
  bits : Nat
deriving DecidableEq, Repr

/-- `MeshPipelineKey::MSAA_MASK_BITS = 0b111` (bevy 0.10). -/
def MeshPipelineKey.MSAA_MASK_BITS : Nat := 7

/-- `MeshPipelineKey::MSAA_SHIFT_BITS = 32 - 0b111.count_ones() = 29`
(bevy 0.10). -/
def MeshPipelineKey.MSAA_SHIFT_BITS : Nat := 29

/-- `MeshPipelineKey::msaa_samples`, from bevy 0.10:
`1 << ((self.bits >> Self::MSAA_SHIFT_BITS) & Self::MSAA_MASK_BITS)`. -/
def MeshPipelineKey.msaa_samples (k : MeshPipelineKey) : Nat :=
  2 ^ ((k.bits / 2 ^ MeshPipelineKey.MSAA_SHIFT_BITS) % (MeshPipelineKey.MSAA_MASK_BITS + 1))

/-- `MeshPipelineKey::from_msaa_samples` (bevy 0.10): stores
`samples.trailing_zeros() & 0b111` in the MSAA bit field.  Used only to build
concrete keys in witnesses. -/
def MeshPipelineKey.from_msaa_samples (samples : Nat) : MeshPipelineKey :=
  { bits := ((Nat.log2 samples) % (MeshPipelineKey.MSAA_MASK_BITS + 1))
      * 2 ^ MeshPipelineKey.MSAA_SHIFT_BITS }

/-- Texture formats mentioned by the code (`TextureFormat`); all others are
collapsed into `other`. -/
inductive TextureFormat where
  | R8Unorm
  | Depth24PlusStencil8
  | other (id : Nat)
deriving DecidableEq, Repr

/-- `ColorWrites` bit set; `ColorWrites::ALL = RED | GREEN | BLUE | ALPHA = 0xF`. -/
def ColorWrites.ALL : Nat := 15

/-- `ColorTargetState` (blend state kept opaque; the code only ever writes
`None` there). -/
structure ColorTargetState where
  format : TextureFormat
  blend : Option Nat
  write_mask : Nat
deriving DecidableEq, Repr

/-- `MultisampleState`; `mask` is a `u64` sample mask. -/
structure MultisampleState where
  count : Nat
  mask : Nat
  alpha_to_coverage_enabled : Bool
deriving DecidableEq, Repr

/-- `ShaderDefVal` (bevy 0.10): the code uses only the `Int` variant. -/
inductive ShaderDefVal where
  | int (name : String) (value : Int)
  | boolVal (name : String) (value : Bool)
deriving DecidableEq, Repr

/-- `VertexState`: shader handle, preprocessor defines, entry point, and the
(opaque) vertex buffer layouts produced by the base specialization. -/
structure VertexState where
  shader : ShaderHandle
  shader_defs : List ShaderDefVal
  entry_point : String
  buffers : List Nat
deriving DecidableEq, Repr

/-- `FragmentState`. -/
structure FragmentState where
  shader : ShaderHandle
  shader_defs : List ShaderDefVal
  entry_point : String
  targets : List (Option ColorTargetState)
deriving DecidableEq, Repr

/-- `RenderPipelineDescriptor`; `primitive` and the depth/stencil state are
opaque (the code never reads them, and writes only `None` to
`depth_stencil`). -/
structure RenderPipelineDescriptor where
  label : Option String
  layout : List BindGroupLayout
  vertex : VertexState
  fragment : Option FragmentState
  primitive : Nat
  depth_stencil : Option Nat
  multisample : MultisampleState
deriving DecidableEq, Repr

/-- The base `MeshPipeline` resource, as consumed by mask.rs: the three
bind-group layouts it exposes plus its own `specialize` method, which may
fail.  The method is an opaque function parameter — mask.rs treats it as a
black box. -/
structure MeshPipeline where
  view_layout : BindGroupLayout
  view_layout_multisampled : BindGroupLayout
  mesh_layout : BindGroupLayout
  specialize : MeshPipelineKey → VertexLayout →
    Except SpecializedMeshPipelineError RenderPipelineDescriptor

/-- `MeshMaskPipeline` (mask.rs lines 20–23): wraps a clone of the base mesh
pipeline. -/
structure MeshMaskPipeline where
  mesh_pipeline : MeshPipeline

/-- `MASK_SHADER_HANDLE` from the crate root (an arbitrary fixed weak handle;
its numeric value is irrelevant to every claim). -/
def MASK_SHADER_HANDLE : ShaderHandle := 10983476011749784672

/-- `bevy::pbr::MAX_DIRECTIONAL_LIGHTS` (bevy 0.10). -/
def MAX_DIRECTIONAL_LIGHTS : Nat := 10

/-- `bevy::pbr::MAX_CASCADES_PER_LIGHT` (bevy 0.10). -/
def MAX_CASCADES_PER_LIGHT : Nat := 4

/-- The field overrides `MeshMaskPipeline::specialize` applies to the base
descriptor (mask.rs lines 43–81): bind-group layouts, both shader stages, the
fragment targets, depth/stencil, multisample state and the label. -/
def maskOverride (p : MeshMaskPipeline) (key : MeshPipelineKey)
    (desc : RenderPipelineDescriptor) : RenderPipelineDescriptor :=
  { desc with
      layout :=
        [ if key.msaa_samples > 0 then
            p.mesh_pipeline.view_layout_multisampled
          else
            p.mesh_pipeline.view_layout,
          p.mesh_pipeline.mesh_layout ],
      vertex := { desc.vertex with shader := MASK_SHADER_HANDLE },
      fragment := some
        { shader := MASK_SHADER_HANDLE,
          shader_defs :=
            [ ShaderDefVal.int "MAX_DIRECTIONAL_LIGHTS" (MAX_DIRECTIONAL_LIGHTS : Int),
              ShaderDefVal.int "MAX_CASCADES_PER_LIGHT" (MAX_CASCADES_PER_LIGHT : Int) ],
          entry_point := "fragment",
          targets :=
            [ some { format := TextureFormat.R8Unorm,
                     blend := none,
                     write_mask := ColorWrites.ALL } ] },
      depth_stencil := none,
      multisample :=
        { count := 4,
          mask := 2 ^ 64 - 1,
          alpha_to_coverage_enabled := false },
      label := some "mesh_stencil_pipeline" }

/-- `MeshMaskPipeline::specialize` (mask.rs lines 36–83): delegate to the base
pipeline's specialization (propagating its error via `?`, unmodified), then
apply the fixed field overrides of `maskOverride`. -/
def MeshMaskPipeline.specialize (p : MeshMaskPipeline) (key : MeshPipelineKey)
    (layout : VertexLayout) :
    Except SpecializedMeshPipelineError RenderPipelineDescriptor :=
  match p.mesh_pipeline.specialize key layout with
  | .error e => .error e
  | .ok desc => .ok (maskOverride p key desc)

/-! ## The mask node -/

/-- Opaque handle for a texture view (`TextureView`). -/
abbrev TextureView := Nat

/-- Opaque ECS entity id. -/
abbrev Entity := Nat

/-- Opaque item of a `RenderPhase<MeshMask>` (mesh + cached pipeline + draw
function, prepared upstream; the node treats it as read-only). -/
abbrev MeshMaskItem := Nat

/-- The slice of a cached GPU texture that mask.rs reads: its default view. -/
structure CachedTexture where
  default_view : TextureView
deriving DecidableEq, Repr

/-- The slice of the `OutlineResources` resource that mask.rs reads: the
multisampled mask target and the single-sample resolve target. -/
structure OutlineResources where
  mask_multisample : CachedTexture
  mask_output : CachedTexture
deriving DecidableEq, Repr

/-- `RenderPhase<MeshMask>`: the ordered list of draw items for one view.
`RenderPhase::render` submits them in this order, front to back of the
list. -/
structure MeshMaskPhase where
  items : List MeshMaskItem
deriving DecidableEq, Repr

/-- The slice of the render `World` that `MeshMaskNode::run` reads: the
optional `OutlineResources` resource. -/
structure World where
  outline_resources : Option OutlineResources

/-- The render-graph context as `run` consumes it: the value of the `view`
input slot (if wired), and whether `graph.set_output(OUT_MASK, ...)` succeeds
(it fails only on graph-wiring mismatches, which are external to this
code). -/
structure RenderGraphContext where
  input_view : Option Entity
  set_output_ok : Bool

/-- `MeshMaskNode` (mask.rs lines 87–89): its query state, modelled as the
lookup it performs — `query.get_manual(world, view_entity)`, returning the
view's `RenderPhase<MeshMask>` when one is registered. -/
structure MeshMaskNode where
  query : Entity → Option MeshMaskPhase

/-- `MeshMaskNode::IN_VIEW`. -/
def MeshMaskNode.IN_VIEW : String := "view"

/-- `MeshMaskNode::OUT_MASK`. -/
def MeshMaskNode.OUT_MASK : String := "stencil"

/-- A linear color with exactly representable components (the code only ever
uses black, whose components 0.0 and 1.0 are exact in `f64`). -/
structure LinearColor where
  r : Int
  g : Int
  b : Int
  a : Int
deriving DecidableEq, Repr

/-- `Color::BLACK.into()`: opaque black, `(0, 0, 0, 1)`. -/
def Color.BLACK : LinearColor := { r := 0, g := 0, b := 0, a := 1 }

/-- `LoadOp` for a color attachment. -/
inductive LoadOp where
  | Clear (color : LinearColor)
  | Load
deriving DecidableEq, Repr

/-- `Operations<Color>`. -/
structure Operations where
  load : LoadOp
  store : Bool
deriving DecidableEq, Repr

/-- `RenderPassColorAttachment`. -/
structure RenderPassColorAttachment where
  view : TextureView
  resolve_target : Option TextureView
  ops : Operations
deriving DecidableEq, Repr

/-- `RenderPassDescriptor` (depth/stencil attachment kept opaque; the code
writes only `None` there). -/
structure RenderPassDescriptor where
  label : Option String
  color_attachments : List (Option RenderPassColorAttachment)
  depth_stencil_attachment : Option Nat
deriving DecidableEq, Repr

/-- One externally visible effect of `MeshMaskNode::run`, in submission
order. -/
inductive RunEvent where
  | setOutput (slot : String) (view : TextureView)
  | beginPass (desc : RenderPassDescriptor)
  | draw (item : MeshMaskItem)
deriving DecidableEq, Repr

/-- Outcome of one invocation of `MeshMaskNode::run`: either a panic (an
`unwrap` on a missing value / failed call), or the Rust `Ok(())` return
together with the ordered trace of effects.  The Rust function has no
non-panicking error path, so the model has no error constructor. -/
inductive RunResult where
  | panicked (msg : String)
  | ok (events : List RunEvent)
deriving DecidableEq, Repr

/-- The render-pass descriptor built at mask.rs lines 139–150: one color
attachment on the multisample target, resolving into the output target,
cleared to black, stored; no depth/stencil attachment. -/
def maskPassDescriptor (res : OutlineResources) : RenderPassDescriptor :=
  { label := some "outline_stencil_render_pass",
    color_attachments :=
      [ some { view := res.mask_multisample.default_view,
               resolve_target := some res.mask_output.default_view,
               ops := { load := LoadOp.Clear Color.BLACK, store := true } } ],
    depth_stencil_attachment := none }

/-- `MeshMaskNode::run` (mask.rs lines 121–155), step by step:
1. `world.get_resource::<OutlineResources>().unwrap()` — panic if absent;
2. `graph.set_output(OUT_MASK, res.mask_multisample.default_view).unwrap()`
   — panic if the graph rejects the assignment;
3. `graph.get_input_entity(IN_VIEW).unwrap()` — panic if the slot is unwired;
4. `query.get_manual(world, view_entity)` — on `Err`, return `Ok(())`;
5. otherwise open the mask render pass and render the phase's items in
   order, then return `Ok(())`. -/
def MeshMaskNode.run (node : MeshMaskNode) (graph : RenderGraphContext)
    (world : World) : RunResult :=
  match world.outline_resources with
  | none => .panicked "called Option::unwrap on a None value: OutlineResources"
  | some res =>
    if graph.set_output_ok then
      match graph.input_view with
      | none => .panicked "called Result::unwrap on an Err value: get_input_entity"
      | some view_entity =>
        match node.query view_entity with
        | none =>
          .ok [RunEvent.setOutput MeshMaskNode.OUT_MASK
            res.mask_multisample.default_view]
        | some phase =>
          .ok (RunEvent.setOutput MeshMaskNode.OUT_MASK
              res.mask_multisample.default_view
            :: RunEvent.beginPass (maskPassDescriptor res)
            :: phase.items.map RunEvent.draw)
    else .panicked "called Result::unwrap on an Err value: set_output"

/-- The render passes opened during a run, in order. -/
def passesOf (events : List RunEvent) : List RenderPassDescriptor :=
  events.filterMap fun e =>
    match e with
    | .beginPass d => some d
    | _ => none

/-- The draw items submitted during a run, in order. -/
def drawsOf (events : List RunEvent) : List MeshMaskItem :=
  events.filterMap fun e =>
    match e with
    | .draw i => some i
    | _ => none

/-- The bind-group layout list the spec's own words predict for the
specializer: the multisampled view layout when the key indicates
multisampling (MSAA on, i.e. a sample count above one), else the
single-sample view layout, followed by the mesh layout.  Written from the
spec sentence, to be compared against the code's `specialize`. -/
def specPredictedLayoutList (p : MeshMaskPipeline) (key : MeshPipelineKey) :
    List BindGroupLayout :=
  [ if key.msaa_samples > 1 then
      p.mesh_pipeline.view_layout_multisampled
    else
      p.mesh_pipeline.view_layout,
    p.mesh_pipeline.mesh_layout ]

/-- Whether a run panicked. -/
def RunResult.isPanicked : RunResult → Bool
  | .panicked _ => true
  | .ok _ => false

/-! ## Concrete fixtures, used by witnesses and counterexamples -/

/-- A concrete base descriptor, standing for what the base mesh pipeline
returns before the mask overrides. -/
def baseDesc0 : RenderPipelineDescriptor :=
  { label := some "mesh_pipeline",
    layout := [20, 21, 22],
    vertex := { shader := 1, shader_defs := [], entry_point := "vertex",
                buffers := [2] },
    fragment := some
      { shader := 1, shader_defs := [], entry_point := "fragment",
        targets := [some { format := TextureFormat.other 0, blend := some 3,
                           write_mask := ColorWrites.ALL }] },
    primitive := 0,
    depth_stencil := some 5,
    multisample := { count := 1, mask := 2 ^ 64 - 1,
                     alpha_to_coverage_enabled := false } }

/-- A concrete base mesh pipeline whose specialization always succeeds with
`baseDesc0`; its three bind-group layouts are pairwise distinct. -/
def basePipe0 : MeshPipeline :=
  { view_layout := 10, view_layout_multisampled := 11, mesh_layout := 12,
    specialize := fun _ _ => .ok baseDesc0 }

/-- Concrete mask pipeline over `basePipe0`. -/
def pipe0 : MeshMaskPipeline := { mesh_pipeline := basePipe0 }

/-- A concrete base mesh pipeline whose specialization always fails with
error `5`. -/
def basePipeErr : MeshPipeline :=
  { view_layout := 10, view_layout_multisampled := 11, mesh_layout := 12,
    specialize := fun _ _ => .error 5 }

/-- Concrete mask pipeline over `basePipeErr`. -/
def pipeErr : MeshMaskPipeline := { mesh_pipeline := basePipeErr }

/-- Concrete key with all bits clear: its MSAA bit field encodes 1 sample,
i.e. an MSAA-off view. -/
def key0 : MeshPipelineKey := { bits := 0 }

/-- Concrete outline resources: multisample view `0`, resolved view `1`. -/
def res0 : OutlineResources :=
  { mask_multisample := { default_view := 0 },
    mask_output := { default_view := 1 } }

/-- Concrete world holding `res0`. -/
def world0 : World := { outline_resources := some res0 }

/-- Concrete world with the `OutlineResources` resource absent. -/
def worldNone : World := { outline_resources := none }

/-- Concrete graph context: view entity `0` wired, output assignment
succeeds. -/
def graph0 : RenderGraphContext := { input_view := some 0, set_output_ok := true }

/-- Concrete graph context whose output assignment fails. -/
def graphNoOut : RenderGraphContext :=
  { input_view := some 0, set_output_ok := false }

/-- Concrete graph context with the view input slot unwired. -/
def graphNoView : RenderGraphContext :=
  { input_view := none, set_output_ok := true }

/-- Concrete two-item phase. -/
def phase0 : MeshMaskPhase := { items := [3, 4] }

/-- Concrete node for which no view has a registered phase. -/
def node0 : MeshMaskNode := { query := fun _ => none }

/-- Concrete node registering `phase0` for view entity `0`. -/
def nodeP : MeshMaskNode :=
  { query := fun e => if e = 0 then some phase0 else none }

/-! ## Helper lemmas -/

/-- A trace consisting only of draw events opens no pass. -/
theorem passesOf_map_draw (items : List MeshMaskItem) :
    passesOf (items.map RunEvent.draw) = [] := by
  induction items with
  | nil => rfl
  | cons i t ih => simp only [List.map_cons, passesOf, List.filterMap_cons] at ih ⊢; exact ih

/-- The draw events of a pure draw trace are exactly its items, in order. -/
theorem drawsOf_map_draw (items : List MeshMaskItem) :
    drawsOf (items.map RunEvent.draw) = items := by
  induction items with
  | nil => rfl
  | cons i t ih => simp [drawsOf, List.filterMap_cons] at ih ⊢; exact ih

/-- Every key's MSAA sample count is positive: the bit field encodes the
exponent of a power of two. -/
theorem msaa_samples_pos (key : MeshPipelineKey) : 0 < key.msaa_samples :=
  Nat.pos_pow_of_pos _ (by norm_num)

/-- When the base specialization succeeds, the mask specialization succeeds
with exactly the overridden descriptor. -/
theorem specialize_eq_of_base_ok (p : MeshMaskPipeline) (key : MeshPipelineKey)
    (layout : VertexLayout) (base : RenderPipelineDescriptor)
    (hbase : p.mesh_pipeline.specialize key layout = .ok base) :
    MeshMaskPipeline.specialize p key layout = .ok (maskOverride p key base) := by
  unfold MeshMaskPipeline.specialize
  rw [hbase]

/-- Evaluation of `run` when a phase is registered for the input view. -/
theorem run_eq_of_phase (node : MeshMaskNode) (graph : RenderGraphContext)
    (world : World) (res : OutlineResources) (view : Entity)
    (phase : MeshMaskPhase)
    (hres : world.outline_resources = some res)
    (hok : graph.set_output_ok = true)
    (hview : graph.input_view = some view)
    (hphase : node.query view = some phase) :
    MeshMaskNode.run node graph world =
      .ok (RunEvent.setOutput MeshMaskNode.OUT_MASK
          res.mask_multisample.default_view
        :: RunEvent.beginPass (maskPassDescriptor res)
        :: phase.items.map RunEvent.draw) := by
  unfold MeshMaskNode.run
  rw [hres, hok, hview]
  simp [hphase]

/-- Evaluation of `run` when no phase is registered for the input view. -/
theorem run_eq_of_no_phase (node : MeshMaskNode) (graph : RenderGraphContext)
    (world : World) (res : OutlineResources) (view : Entity)
    (hres : world.outline_resources = some res)
    (hok : graph.set_output_ok = true)
    (hview : graph.input_view = some view)
    (hphase : node.query view = none) :
    MeshMaskNode.run node graph world =
      .ok [RunEvent.setOutput MeshMaskNode.OUT_MASK
        res.mask_multisample.default_view] := by
  unfold MeshMaskNode.run
  rw [hres, hok, hview]
  simp [hphase]

/-- `run` panics when the `OutlineResources` resource is absent. -/
theorem run_panics_no_resources (node : MeshMaskNode)
    (graph : RenderGraphContext) (world : World)
    (hres : world.outline_resources = none) :
    (MeshMaskNode.run node graph world).isPanicked = true := by
  unfold MeshMaskNode.run
  rw [hres]
  rfl

/-- `run` panics when the output-slot assignment fails. -/
theorem run_panics_no_output (node : MeshMaskNode)
    (graph : RenderGraphContext) (world : World)
    (hok : graph.set_output_ok = false) :
    (MeshMaskNode.run node graph world).isPanicked = true := by
  unfold MeshMaskNode.run
  cases hres : world.outline_resources with
  | none => rfl
  | some res => rw [hok]; rfl

/-- `run` panics when the view input slot is unwired. -/
theorem run_panics_no_view (node : MeshMaskNode)
    (graph : RenderGraphContext) (world : World)
    (hview : graph.input_view = none) :
    (MeshMaskNode.run node graph world).isPanicked = true := by
  unfold MeshMaskNode.run
  cases hres : world.outline_resources with
  | none => rfl
  | some res =>
    cases hok : graph.set_output_ok with
    | false => rfl
    | true => rw [hview]; rfl

/-- An output-slot event contributes no render pass. -/
theorem passesOf_cons_setOutput (s : String) (v : TextureView)
    (t : List RunEvent) :
    passesOf (RunEvent.setOutput s v :: t) = passesOf t := by
  simp [passesOf, List.filterMap_cons]

/-- A pass event contributes its descriptor. -/
theorem passesOf_cons_beginPass (d : RenderPassDescriptor)
    (t : List RunEvent) :
    passesOf (RunEvent.beginPass d :: t) = d :: passesOf t := by
  simp [passesOf, List.filterMap_cons]

/-- An output-slot event contributes no draw. -/
theorem drawsOf_cons_setOutput (s : String) (v : TextureView)
    (t : List RunEvent) :
    drawsOf (RunEvent.setOutput s v :: t) = drawsOf t := by
  simp [drawsOf, List.filterMap_cons]

/-- A pass event contributes no draw. -/
theorem drawsOf_cons_beginPass (d : RenderPassDescriptor)
    (t : List RunEvent) :
    drawsOf (RunEvent.beginPass d :: t) = drawsOf t := by
  simp [drawsOf, List.filterMap_cons]

/-! ## Claims -/

/-- Claim C1, counterexample: at concrete inputs (resources with multisample
view `0` and resolved view `1`), `run` assigns the output slot the
*multisample* texture view `0`, not the resolved (single-sample) view `1`;
so the claim that the output slot receives the resolved view is false on the
code. -/
theorem claim_C1_counterexample :
    MeshMaskNode.run node0 graph0 world0 =
      RunResult.ok [RunEvent.setOutput MeshMaskNode.OUT_MASK
        res0.mask_multisample.default_view] ∧
    res0.mask_multisample.default_view = 0 ∧
    res0.mask_output.default_view = 1 ∧
    (0 : TextureView) ≠ 1 :=
  ⟨rfl, rfl, rfl, by decide⟩

/-- Claim C1 (amended): on every invocation of `run` that returns (does not
panic), the trace begins with the assignment of the output slot to the
*multisample* mask texture view — before, and regardless of whether, any
pass or draw occurs. -/
theorem claim_C1 (node : MeshMaskNode) (graph : RenderGraphContext)
    (world : World) (res : OutlineResources) (events : List RunEvent)
    (hres : world.outline_resources = some res)
    (hrun : MeshMaskNode.run node graph world = RunResult.ok events) :
    ∃ rest, events =
      RunEvent.setOutput MeshMaskNode.OUT_MASK res.mask_multisample.default_view
        :: rest := by
  cases hok : graph.set_output_ok with
  | false =>
    have hp := run_panics_no_output node graph world hok
    rw [hrun] at hp
    simp [RunResult.isPanicked] at hp
  | true =>
    cases hview : graph.input_view with
    | none =>
      have hp := run_panics_no_view node graph world hview
      rw [hrun] at hp
      simp [RunResult.isPanicked] at hp
    | some v =>
      cases hq : node.query v with
      | none =>
        have h := run_eq_of_no_phase node graph world res v hres hok hview hq
        rw [hrun] at h
        injection h with h
        exact ⟨[], h⟩
      | some phase =>
        have h := run_eq_of_phase node graph world res v phase hres hok hview hq
        rw [hrun] at h
        injection h with h
        exact ⟨_, h⟩

/-- Claim C1, witness: the amended claim at the concrete fixtures. -/
theorem claim_C1_witness :
    ∃ rest,
      [RunEvent.setOutput MeshMaskNode.OUT_MASK
        res0.mask_multisample.default_view] =
      RunEvent.setOutput MeshMaskNode.OUT_MASK res0.mask_multisample.default_view
        :: rest :=
  claim_C1 node0 graph0 world0 res0 _ rfl rfl

/-- Claim C2: whenever the base specialization succeeds, the mask
specialization succeeds and the returned configuration has no depth/stencil
attachment; multisample count 4 with full (`!0`) sample mask and
alpha-to-coverage disabled; exactly one color target, of format `R8Unorm`,
with no blending and write-all mask; and a bind-group layout list of
length 2. -/
theorem claim_C2 (p : MeshMaskPipeline) (key : MeshPipelineKey)
    (layout : VertexLayout) (base : RenderPipelineDescriptor)
    (hbase : p.mesh_pipeline.specialize key layout = .ok base) :
    ∃ desc, MeshMaskPipeline.specialize p key layout = .ok desc ∧
      desc.depth_stencil = none ∧
      desc.multisample =
        { count := 4, mask := 2 ^ 64 - 1, alpha_to_coverage_enabled := false } ∧
      (∃ frag, desc.fragment = some frag ∧
        frag.targets =
          [ some { format := TextureFormat.R8Unorm, blend := none,
                   write_mask := ColorWrites.ALL } ]) ∧
      desc.layout.length = 2 :=
  ⟨maskOverride p key base, specialize_eq_of_base_ok p key layout base hbase,
    rfl, rfl, ⟨_, rfl, rfl⟩, rfl⟩

/-- Claim C2, witness: the claim at the concrete fixtures. -/
theorem claim_C2_witness :
    ∃ desc, MeshMaskPipeline.specialize pipe0 key0 0 = .ok desc ∧
      desc.depth_stencil = none ∧
      desc.multisample =
        { count := 4, mask := 2 ^ 64 - 1, alpha_to_coverage_enabled := false } ∧
      (∃ frag, desc.fragment = some frag ∧
        frag.targets =
          [ some { format := TextureFormat.R8Unorm, blend := none,
                   write_mask := ColorWrites.ALL } ]) ∧
      desc.layout.length = 2 :=
  claim_C2 pipe0 key0 0 baseDesc0 rfl

/-- Claim C3: invoking the node for a view with no registered
`RenderPhase<MeshMask>` assigns the output slot, opens no render pass,
performs no draws, and returns `Ok(())`. -/
theorem claim_C3 (node : MeshMaskNode) (graph : RenderGraphContext)
    (world : World) (res : OutlineResources) (view : Entity)
    (hres : world.outline_resources = some res)
    (hok : graph.set_output_ok = true)
    (hview : graph.input_view = some view)
    (hphase : node.query view = none) :
    ∃ events, MeshMaskNode.run node graph world = RunResult.ok events ∧
      events = [RunEvent.setOutput MeshMaskNode.OUT_MASK
        res.mask_multisample.default_view] ∧
      passesOf events = [] ∧
      drawsOf events = [] :=
  ⟨_, run_eq_of_no_phase node graph world res view hres hok hview hphase,
    rfl, rfl, rfl⟩

/-- Claim C3, witness: the claim at the concrete fixtures. -/
theorem claim_C3_witness :
    ∃ events, MeshMaskNode.run node0 graph0 world0 = RunResult.ok events ∧
      events = [RunEvent.setOutput MeshMaskNode.OUT_MASK
        res0.mask_multisample.default_view] ∧
      passesOf events = [] ∧
      drawsOf events = [] :=
  claim_C3 node0 graph0 world0 res0 0 rfl rfl rfl rfl

/-- Claim C4: if the base specialization fails, the mask specialization
fails with exactly the same error value, unmodified (and never reaches the
field overrides). -/
theorem claim_C4 (p : MeshMaskPipeline) (key : MeshPipelineKey)
    (layout : VertexLayout) (e : SpecializedMeshPipelineError)
    (herr : p.mesh_pipeline.specialize key layout = .error e) :
    MeshMaskPipeline.specialize p key layout = .error e := by
  unfold MeshMaskPipeline.specialize
  rw [herr]

/-- Claim C4, witness: the claim at a base pipeline failing with error `5`. -/
theorem claim_C4_witness :
    MeshMaskPipeline.specialize pipeErr key0 0 = .error 5 :=
  claim_C4 pipeErr key0 0 5 rfl

/-- Claim C5: the specializer is deterministic — two calls with equal
`(key, layout)` on the same pipeline return structurally identical
configurations (it is a pure function of its inputs in this embedding). -/
theorem claim_C5 (p : MeshMaskPipeline) (key₁ key₂ : MeshPipelineKey)
    (layout₁ layout₂ : VertexLayout)
    (hkey : key₁ = key₂) (hlayout : layout₁ = layout₂) :
    MeshMaskPipeline.specialize p key₁ layout₁ =
      MeshMaskPipeline.specialize p key₂ layout₂ := by
  rw [hkey, hlayout]

/-- Claim C5, witness: the claim at concrete equal inputs. -/
theorem claim_C5_witness :
    MeshMaskPipeline.specialize pipe0 key0 0 =
      MeshMaskPipeline.specialize pipe0 key0 0 :=
  claim_C5 pipe0 key0 key0 0 0 rfl rfl

/-- Claim C6, counterexample: for the MSAA-off key (`msaa_samples = 1`,
so the key does not indicate multisampling), the code still produces the
*multisampled* view layout (`11` in the fixture), while the spec's words
predict the single-sample view layout (`10`); the two lists differ. -/
theorem claim_C6_counterexample :
    Except.map RenderPipelineDescriptor.layout
        (MeshMaskPipeline.specialize pipe0 key0 0) =
      Except.ok [11, 12] ∧
    specPredictedLayoutList pipe0 key0 = [10, 12] ∧
    key0.msaa_samples = 1 ∧
    (Except.ok [11, 12] :
        Except SpecializedMeshPipelineError (List BindGroupLayout)) ≠
      Except.ok [10, 12] :=
  ⟨rfl, rfl, rfl, by simp⟩

/-- Claim C6 (amended): whenever the base specialization succeeds, the
returned bind-group layout list is exactly `[multisampled view layout,
mesh layout]` — the branch test `msaa_samples > 0` holds for every key, so
the multisampled variant is chosen unconditionally. -/
theorem claim_C6 (p : MeshMaskPipeline) (key : MeshPipelineKey)
    (layout : VertexLayout) (base : RenderPipelineDescriptor)
    (hbase : p.mesh_pipeline.specialize key layout = .ok base) :
    ∃ desc, MeshMaskPipeline.specialize p key layout = .ok desc ∧
      desc.layout =
        [p.mesh_pipeline.view_layout_multisampled, p.mesh_pipeline.mesh_layout] := by
  refine ⟨maskOverride p key base,
    specialize_eq_of_base_ok p key layout base hbase, ?_⟩
  have hpos := msaa_samples_pos key
  simp [maskOverride, hpos]

/-- Claim C6, witness: the amended claim at the concrete fixtures. -/
theorem claim_C6_witness :
    ∃ desc, MeshMaskPipeline.specialize pipe0 key0 0 = .ok desc ∧
      desc.layout =
        [pipe0.mesh_pipeline.view_layout_multisampled,
         pipe0.mesh_pipeline.mesh_layout] :=
  claim_C6 pipe0 key0 0 baseDesc0 rfl

/-- Claim C7: when a phase exists for the input view, `run` opens exactly
one render pass; its single color attachment is the multisample target with
the resolved target as resolve destination, load = clear to black, store =
true, and no depth/stencil attachment is bound. -/
theorem claim_C7 (node : MeshMaskNode) (graph : RenderGraphContext)
    (world : World) (res : OutlineResources) (view : Entity)
    (phase : MeshMaskPhase)
    (hres : world.outline_resources = some res)
    (hok : graph.set_output_ok = true)
    (hview : graph.input_view = some view)
    (hphase : node.query view = some phase) :
    ∃ events, MeshMaskNode.run node graph world = RunResult.ok events ∧
      passesOf events = [maskPassDescriptor res] ∧
      (maskPassDescriptor res).color_attachments =
        [ some { view := res.mask_multisample.default_view,
                 resolve_target := some res.mask_output.default_view,
                 ops := { load := LoadOp.Clear Color.BLACK, store := true } } ] ∧
      (maskPassDescriptor res).depth_stencil_attachment = none := by
  refine ⟨_, run_eq_of_phase node graph world res view phase hres hok hview hphase,
    ?_, rfl, rfl⟩
  rw [passesOf_cons_setOutput, passesOf_cons_beginPass, passesOf_map_draw]

/-- Claim C7, witness: the claim at the concrete fixtures. -/
theorem claim_C7_witness :
    ∃ events, MeshMaskNode.run nodeP graph0 world0 = RunResult.ok events ∧
      passesOf events = [maskPassDescriptor res0] ∧
      (maskPassDescriptor res0).color_attachments =
        [ some { view := res0.mask_multisample.default_view,
                 resolve_target := some res0.mask_output.default_view,
                 ops := { load := LoadOp.Clear Color.BLACK, store := true } } ] ∧
      (maskPassDescriptor res0).depth_stencil_attachment = none :=
  claim_C7 nodeP graph0 world0 res0 0 phase0 rfl rfl rfl rfl

/-- Claim C8: when the input view has a non-empty phase, the trace is the
output-slot assignment, then the single pass whose color attachment clears
to black (the uncovered background value), then the phase's items drawn in
the phase's given order — each submitted exactly once, no reordering or
culling, and the clear strictly before any draw. -/
theorem claim_C8 (node : MeshMaskNode) (graph : RenderGraphContext)
    (world : World) (res : OutlineResources) (view : Entity)
    (phase : MeshMaskPhase)
    (hres : world.outline_resources = some res)
    (hok : graph.set_output_ok = true)
    (hview : graph.input_view = some view)
    (hphase : node.query view = some phase)
    (_hne : phase.items ≠ []) :
    ∃ events, MeshMaskNode.run node graph world = RunResult.ok events ∧
      events =
        RunEvent.setOutput MeshMaskNode.OUT_MASK res.mask_multisample.default_view
          :: RunEvent.beginPass (maskPassDescriptor res)
          :: phase.items.map RunEvent.draw ∧
      drawsOf events = phase.items ∧
      (∃ att, (maskPassDescriptor res).color_attachments = [some att] ∧
        att.ops.load = LoadOp.Clear Color.BLACK) := by
  refine ⟨_, run_eq_of_phase node graph world res view phase hres hok hview hphase,
    rfl, ?_, ⟨_, rfl, rfl⟩⟩
  rw [drawsOf_cons_setOutput, drawsOf_cons_beginPass, drawsOf_map_draw]

/-- Claim C8, witness: the claim at the concrete two-item phase. -/
theorem claim_C8_witness :
    ∃ events, MeshMaskNode.run nodeP graph0 world0 = RunResult.ok events ∧
      events =
        RunEvent.setOutput MeshMaskNode.OUT_MASK res0.mask_multisample.default_view
          :: RunEvent.beginPass (maskPassDescriptor res0)
          :: phase0.items.map RunEvent.draw ∧
      drawsOf events = phase0.items ∧
      (∃ att, (maskPassDescriptor res0).color_attachments = [some att] ∧
        att.ops.load = LoadOp.Clear Color.BLACK) :=
  claim_C8 nodeP graph0 world0 res0 0 phase0 rfl rfl rfl rfl (by decide)

/-- Claim C9 (implicit): every key's MSAA sample count is positive (it is a
power of two decoded from the key's bit field), so the branch test
`msaa_samples > 0` holds for every valid key and the single-sample view
layout is chosen for none of them — the overridden layout list always
starts with the multisampled view layout. -/
theorem claim_C9 (p : MeshMaskPipeline) (key : MeshPipelineKey)
    (desc : RenderPipelineDescriptor) :
    0 < key.msaa_samples ∧
    (maskOverride p key desc).layout =
      [p.mesh_pipeline.view_layout_multisampled, p.mesh_pipeline.mesh_layout] := by
  have hpos := msaa_samples_pos key
  exact ⟨hpos, by simp [maskOverride, hpos]⟩

/-- Claim C10 (implicit): `run` panics when the `OutlineResources` resource
is absent, when the output-slot assignment fails, or when the view input
slot is unwired; when all three are available it never errors — it returns
`Ok(())` (the `ok` trace) on every path. -/
theorem claim_C10 (node : MeshMaskNode) (graph : RenderGraphContext)
    (world : World) :
    (world.outline_resources = none →
      (MeshMaskNode.run node graph world).isPanicked = true) ∧
    (graph.set_output_ok = false →
      (MeshMaskNode.run node graph world).isPanicked = true) ∧
    (graph.input_view = none →
      (MeshMaskNode.run node graph world).isPanicked = true) ∧
    (∀ res view, world.outline_resources = some res →
      graph.set_output_ok = true → graph.input_view = some view →
      ∃ events, MeshMaskNode.run node graph world = RunResult.ok events) := by
  refine ⟨run_panics_no_resources node graph world,
    run_panics_no_output node graph world,
    run_panics_no_view node graph world, ?_⟩
  intro res view hres hok hview
  cases hq : node.query view with
  | none => exact ⟨_, run_eq_of_no_phase node graph world res view hres hok hview hq⟩
  | some phase =>
    exact ⟨_, run_eq_of_phase node graph world res view phase hres hok hview hq⟩

/-- Claim C10, witness: the claim exercised at concrete fixtures for each of
the three panic conditions and for the success path. -/
theorem claim_C10_witness :
    (MeshMaskNode.run node0 graph0 worldNone).isPanicked = true ∧
    (MeshMaskNode.run node0 graphNoOut world0).isPanicked = true ∧
    (MeshMaskNode.run node0 graphNoView world0).isPanicked = true ∧
    (∃ events, MeshMaskNode.run node0 graph0 world0 = RunResult.ok events) :=
  ⟨(claim_C10 node0 graph0 worldNone).1 rfl,
   (claim_C10 node0 graphNoOut world0).2.1 rfl,
   (claim_C10 node0 graphNoView world0).2.2.1 rfl,
   (claim_C10 node0 graph0 world0).2.2.2 res0 0 rfl rfl rfl⟩

end BevyJfa
